import Mathlib

/-!
Verification of the viyv-browser message transport, session and dispatch
layer against its natural-language specification.

The development shallowly embeds the TypeScript sources:

* `packages/mcp-server/src/native-host/transport.ts` — the 4-byte
  length-prefixed framed JSON transport (`encodeMessage`,
  `createMessageReader`) and the Bridge (`startBridge`);
* `packages/mcp-server/src/native-host/compression.ts` — chunking and
  reassembly (`chunkPayload`, `reassembleChunks`);
* `packages/mcp-server/src/server.ts` — the socket acceptor, the
  pending-request engine and `handleExtensionMessage`;
* `packages/mcp-server/src/agent-session.ts` — the agent session table;
* the extension worker's tool dispatcher (`handleToolCall`,
  `sanitizeRef`, `inferErrorCode`) and tab manager (`acquireTabLock`).

Machine integers are modelled as `Nat`/`Int`; JS `Map`s as association
lists in insertion order; opaque JSON values as `String` labels; the
external world (chrome APIs, CDP) as explicit oracle parameters.
-/

namespace ViyvBrowser

/-! ### Association lists, modelling JS `Map` (insertion order, unique keys) -/

def lookupA {κ α : Type} [DecidableEq κ] (k : κ) : List (κ × α) → Option α
  | [] => none
  | p :: rest => if p.1 = k then some p.2 else lookupA k rest

def eraseA {κ α : Type} [DecidableEq κ] (k : κ) : List (κ × α) → List (κ × α)
  | [] => []
  | p :: rest => if p.1 = k then rest else p :: eraseA k rest

def updateA {κ α : Type} [DecidableEq κ] (k : κ) (v : α) : List (κ × α) → List (κ × α)
  | [] => []
  | p :: rest => if p.1 = k then (k, v) :: rest else p :: updateA k v rest

/-- JS `Map.prototype.set`: update in place when the key exists (keeping
insertion order), append otherwise. -/
def setA {κ α : Type} [DecidableEq κ] (k : κ) (v : α) (l : List (κ × α)) : List (κ × α) :=
  match lookupA k l with
  | some _ => updateA k v l
  | none => l ++ [(k, v)]

theorem lookupA_eq_none_of_not_mem {κ α : Type} [DecidableEq κ] (k : κ)
    (l : List (κ × α)) (h : k ∉ l.map Prod.fst) : lookupA k l = none := by
  induction l with
  | nil => rfl
  | cons p rest ih =>
    simp only [List.map_cons, List.mem_cons, not_or] at h
    have hne : p.1 ≠ k := fun hc => h.1 hc.symm
    simp only [lookupA, if_neg hne]
    exact ih h.2

theorem lookupA_updateA_self {κ α : Type} [DecidableEq κ] (k : κ) (v : α)
    (l : List (κ × α)) (s : α) (h : lookupA k l = some s) :
    lookupA k (updateA k v l) = some v := by
  induction l with
  | nil => simp [lookupA] at h
  | cons p rest ih =>
    by_cases hk : p.1 = k
    · simp [updateA, hk, lookupA]
    · simp only [lookupA, if_neg hk] at h
      simp only [updateA, if_neg hk, lookupA, if_neg hk]
      exact ih h

theorem lookupA_eraseA_of_nodup {κ α : Type} [DecidableEq κ] (k : κ)
    (l : List (κ × α)) (h : (l.map Prod.fst).Nodup) :
    lookupA k (eraseA k l) = none := by
  induction l with
  | nil => rfl
  | cons p rest ih =>
    simp only [List.map_cons, List.nodup_cons] at h
    by_cases hk : p.1 = k
    · subst hk
      simp only [eraseA, if_pos rfl]
      exact lookupA_eq_none_of_not_mem _ _ h.1
    · simp only [eraseA, if_neg hk, lookupA, if_neg hk]
      exact ih h.2

/-! ### Framed transport (`transport.ts`)

`encodeMessage` serialises a value to UTF-8 JSON, rejects bodies past the
1 MiB cap, and prepends a 4-byte little-endian length.  `createMessageReader`
keeps a rolling byte buffer and an `expectedLength` register and repeatedly
consumes a header then a payload, calling `onMessage` with each parsed body,
`onError` on an oversize declaration (discarding the buffer) and on invalid
JSON (continuing with the next record).

We model bytes as `Nat`, the byte stream as a list of data chunks, and
`JSON.stringify`/`JSON.parse` as an abstract serialisation pair passed in
as parameters (`stringify`, `parse`). -/

def MAX_MESSAGE_SIZE : Nat := 1024 * 1024

/-- The 4 little-endian bytes of `n` (as written by `writeUInt32LE`). -/
def toLE4 (n : Nat) : List Nat :=
  [n % 256, n / 256 % 256, n / 65536 % 256, n / 16777216 % 256]

/-- `buffer.readUInt32LE(0)` on the first four bytes. -/
def readUInt32LE : List Nat → Nat
  | b0 :: b1 :: b2 :: b3 :: _ => b0 + b1 * 256 + b2 * 65536 + b3 * 16777216
  | _ => 0

/-- `encodeMessage`: `none` models the `Message too large` throw. -/
def encodeMessage (body : List Nat) : Option (List Nat) :=
  if body.length > MAX_MESSAGE_SIZE then none
  else some (toLE4 body.length ++ body)

/-- The decoder state of `createMessageReader`: the rolling buffer, the
`expectedLength` register, plus the observable history (messages delivered
to `onMessage`, number of `onError` calls). -/
structure ReaderState (J : Type) where
  buffer : List Nat
  expectedLength : Option Nat
  msgs : List J
  errs : Nat
deriving Repr, DecidableEq

/-- The `while (true)` loop of the `data` handler: consume a header, then a
payload, until not enough bytes remain. -/
def processBuf {J : Type} (parse : List Nat → Option J) (st : ReaderState J) : ReaderState J :=
  match st with
  | ⟨buffer, none, msgs, errs⟩ =>
    if buffer.length < 4 then ⟨buffer, none, msgs, errs⟩
    else
      let len := readUInt32LE buffer
      if MAX_MESSAGE_SIZE < len then ⟨[], none, msgs, errs + 1⟩
      else processBuf parse ⟨buffer.drop 4, some len, msgs, errs⟩
  | ⟨buffer, some len, msgs, errs⟩ =>
    if buffer.length < len then ⟨buffer, some len, msgs, errs⟩
    else
      match parse (buffer.take len) with
      | some m => processBuf parse ⟨buffer.drop len, none, msgs ++ [m], errs⟩
      | none => processBuf parse ⟨buffer.drop len, none, msgs, errs + 1⟩
termination_by 2 * st.buffer.length + (match st.expectedLength with | none => 0 | some _ => 1)
decreasing_by
  · simp only [List.length_drop]
    omega
  · simp only [List.length_drop]
    omega
  · simp only [List.length_drop]
    omega

/-- One `data` event: append the chunk to the rolling buffer, then run the
consume loop. -/
def onData {J : Type} (parse : List Nat → Option J) (st : ReaderState J)
    (chunk : List Nat) : ReaderState J :=
  processBuf parse { st with buffer := st.buffer ++ chunk }

/-- A sequence of `data` events. -/
def feedAll {J : Type} (parse : List Nat → Option J) (st : ReaderState J)
    (chunks : List (List Nat)) : ReaderState J :=
  chunks.foldl (onData parse) st

def initReader (J : Type) : ReaderState J := ⟨[], none, [], 0⟩

/-! Equations of `processBuf`, one per loop outcome. -/

theorem processBuf_stuck_none {J : Type} (parse : List Nat → Option J)
    (buffer : List Nat) (msgs : List J) (errs : Nat) (h : buffer.length < 4) :
    processBuf parse ⟨buffer, none, msgs, errs⟩ = ⟨buffer, none, msgs, errs⟩ := by
  rw [processBuf]
  simp [h]

theorem processBuf_header {J : Type} (parse : List Nat → Option J)
    (buffer : List Nat) (msgs : List J) (errs : Nat)
    (h4 : ¬ buffer.length < 4) (hmax : ¬ MAX_MESSAGE_SIZE < readUInt32LE buffer) :
    processBuf parse ⟨buffer, none, msgs, errs⟩ =
      processBuf parse ⟨buffer.drop 4, some (readUInt32LE buffer), msgs, errs⟩ := by
  rw [processBuf]
  simp [h4, hmax]

theorem processBuf_stuck_some {J : Type} (parse : List Nat → Option J)
    (buffer : List Nat) (len : Nat) (msgs : List J) (errs : Nat)
    (h : buffer.length < len) :
    processBuf parse ⟨buffer, some len, msgs, errs⟩ = ⟨buffer, some len, msgs, errs⟩ := by
  rw [processBuf]
  simp [h]

theorem processBuf_body_some {J : Type} (parse : List Nat → Option J)
    (buffer : List Nat) (len : Nat) (msgs : List J) (errs : Nat) (m : J)
    (h : ¬ buffer.length < len) (hp : parse (buffer.take len) = some m) :
    processBuf parse ⟨buffer, some len, msgs, errs⟩ =
      processBuf parse ⟨buffer.drop len, none, msgs ++ [m], errs⟩ := by
  conv_lhs => rw [processBuf]
  simp [h, hp]

/-- The decoder state after consuming a prefix `p` of one encoded frame
for `body` (whose parse is `v`): still gathering the 4 header bytes, or
gathering the payload, or done having emitted `v`. -/
def midState {J : Type} (body : List Nat) (v : J) (p : List Nat) : ReaderState J :=
  if p.length < 4 then ⟨p, none, [], 0⟩
  else if p.length < 4 + body.length then ⟨p.drop 4, some body.length, [], 0⟩
  else ⟨[], none, [v], 0⟩

theorem toLE4_length (n : Nat) : (toLE4 n).length = 4 := rfl

theorem readUInt32LE_toLE4 (n : Nat) (rest : List Nat) (h : n < 4294967296) :
    readUInt32LE (toLE4 n ++ rest) = n := by
  simp only [toLE4, List.cons_append, List.nil_append, readUInt32LE]
  omega

/-- A prefix `q` of `toLE4 L ++ body` with at least 4 bytes is the header
followed by the first `q.length - 4` payload bytes. -/
theorem prefix_decomp (body q r : List Nat)
    (hpre : q ++ r = toLE4 body.length ++ body) (h4 : 4 ≤ q.length) :
    q = toLE4 body.length ++ body.take (q.length - 4) := by
  have h1 : q = (q ++ r).take q.length := (List.take_left q r).symm
  rw [hpre] at h1
  rw [List.take_append_eq_append_take] at h1
  rw [List.take_of_length_le (by simp [toLE4_length]; omega)] at h1
  rw [toLE4_length] at h1
  exact h1

/-- Once the header is consumed, the body phase either waits for more
bytes or emits the parsed record. -/
theorem processBuf_midBody {J : Type} (parse : List Nat → Option J) (body : List Nat)
    (v : J) (hp : parse body = some v) (k : Nat) (hk : k ≤ body.length) :
    processBuf parse ⟨body.take k, some body.length, [], 0⟩ =
      (if k < body.length then (⟨body.take k, some body.length, [], 0⟩ : ReaderState J)
       else ⟨[], none, [v], 0⟩) := by
  by_cases hlt : k < body.length
  · rw [if_pos hlt]
    exact processBuf_stuck_some parse _ _ _ _ (by simp [List.length_take]; omega)
  · rw [if_neg hlt]
    have hkL : k = body.length := by omega
    subst hkL
    rw [List.take_length]
    rw [processBuf_body_some parse body body.length [] 0 v (by omega)
      (by rw [List.take_length]; exact hp)]
    rw [List.drop_length]
    exact processBuf_stuck_none parse [] [v] 0 (by simp)

/-- One chunk moves the decoder from the state for prefix `p` to the state
for prefix `p ++ c`, for chunkings of a single well-formed frame. -/
theorem onData_midState {J : Type} (parse : List Nat → Option J) (body : List Nat) (v : J)
    (hmax : body.length ≤ MAX_MESSAGE_SIZE) (hp : parse body = some v)
    (p c r : List Nat) (hpre : (p ++ c) ++ r = toLE4 body.length ++ body) :
    onData parse (midState body v p) c = midState body v (p ++ c) := by
  have hLen : p.length + c.length + r.length = 4 + body.length := by
    have h0 := congrArg List.length hpre
    simp only [List.length_append, toLE4_length] at h0
    omega
  have hpc : (p ++ c).length = p.length + c.length := List.length_append p c
  have hn : (p ++ c).length ≤ 4 + body.length := by omega
  have hL32 : body.length < 4294967296 := by
    have : MAX_MESSAGE_SIZE = 1048576 := rfl
    omega
  by_cases hp4 : p.length < 4
  · -- still gathering the header before this chunk
    rw [midState, if_pos hp4]
    rw [onData]
    by_cases hn4 : (p ++ c).length < 4
    · rw [processBuf_stuck_none parse _ _ _ (by simpa using hn4)]
      rw [midState, if_pos hn4]
    · -- the chunk completes the header
      have hdec := prefix_decomp body (p ++ c) r hpre (by omega)
      have hread : readUInt32LE (p ++ c) = body.length := by
        rw [hdec]
        exact readUInt32LE_toLE4 _ _ hL32
      rw [processBuf_header parse _ _ _ (by simpa using hn4) (by rw [hread]; omega)]
      rw [hread]
      have hdrop : (p ++ c).drop 4 = body.take ((p ++ c).length - 4) := by
        conv_lhs => rw [hdec]
        rw [List.drop_append_eq_append_drop]
        simp [toLE4_length]
      rw [hdrop]
      rw [processBuf_midBody parse body v hp _ (by omega)]
      rw [midState, if_neg hn4]
      by_cases hfull : (p ++ c).length < 4 + body.length
      · rw [if_pos (by omega), if_pos hfull, hdrop]
      · rw [if_neg (by omega), if_neg hfull]
  · by_cases hpfull : p.length < 4 + body.length
    · -- header consumed, payload incomplete before this chunk
      rw [midState, if_neg hp4, if_pos hpfull]
      have hprep : p ++ (c ++ r) = toLE4 body.length ++ body := by
        rw [← hpre]; simp
      have hpdec := prefix_decomp body p (c ++ r) hprep (by omega)
      have hdec := prefix_decomp body (p ++ c) r hpre (by omega)
      have hdropP : p.drop 4 = body.take (p.length - 4) := by
        conv_lhs => rw [hpdec]
        rw [List.drop_append_eq_append_drop]
        simp [toLE4_length]
      have hdrop : (p ++ c).drop 4 = body.take ((p ++ c).length - 4) := by
        conv_lhs => rw [hdec]
        rw [List.drop_append_eq_append_drop]
        simp [toLE4_length]
      rw [onData]
      have hbuf : p.drop 4 ++ c = body.take ((p ++ c).length - 4) := by
        rw [← hdrop]
        rw [List.drop_append_eq_append_drop]
        rw [Nat.sub_eq_zero_of_le (by omega), List.drop_zero]
      simp only [hbuf]
      have hk4 : (p ++ c).length - 4 ≤ body.length := by omega
      rw [processBuf_midBody parse body v hp _ hk4]
      have h44 : ¬ (p ++ c).length < 4 := by omega
      rw [midState, if_neg h44]
      by_cases hfull : (p ++ c).length < 4 + body.length
      · have hlt : (p ++ c).length - 4 < body.length := by omega
        rw [if_pos hlt, if_pos hfull, hdrop]
      · have hge : ¬ (p ++ c).length - 4 < body.length := by omega
        rw [if_neg hge, if_neg hfull]
    · -- the whole frame was already consumed: `c` must be empty
      have hple : p.length ≤ (p ++ c).length := by simp
      have hc : c = [] := by
        have : c.length = 0 := by
          simp only [List.length_append] at hn hple ⊢
          omega
        exact List.length_eq_zero.mp this
      subst hc
      rw [midState, if_neg hp4, if_neg hpfull]
      rw [onData]
      simp only [List.append_nil]
      rw [processBuf_stuck_none parse [] [v] 0 (by simp)]
      rw [midState, if_neg hp4, if_neg hpfull]

theorem feedAll_midState {J : Type} (parse : List Nat → Option J) (body : List Nat) (v : J)
    (hmax : body.length ≤ MAX_MESSAGE_SIZE) (hp : parse body = some v)
    (chunks : List (List Nat)) (p r : List Nat)
    (hpre : (p ++ chunks.flatten) ++ r = toLE4 body.length ++ body) :
    feedAll parse (midState body v p) chunks = midState body v (p ++ chunks.flatten) := by
  induction chunks generalizing p with
  | nil => simp [feedAll]
  | cons c cs ih =>
    have h1 : ((p ++ c) ++ cs.flatten) ++ r = toLE4 body.length ++ body := by
      rw [← hpre]; simp
    have hstep := onData_midState parse body v hmax hp p c (cs.flatten ++ r)
      (by rw [← h1]; simp)
    calc feedAll parse (midState body v p) (c :: cs)
        = feedAll parse (onData parse (midState body v p) c) cs := rfl
      _ = feedAll parse (midState body v (p ++ c)) cs := by rw [hstep]
      _ = midState body v ((p ++ c) ++ cs.flatten) := ih (p ++ c) h1
      _ = midState body v (p ++ (c :: cs).flatten) := by simp

/-- Feeding one whole encoded frame to a fresh decoder, in any chunking,
yields exactly the one parsed record and no errors. -/
theorem feedAll_encodeMessage {J : Type} (parse : List Nat → Option J)
    (body : List Nat) (v : J) (hp : parse body = some v)
    (enc : List Nat) (henc : encodeMessage body = some enc)
    (chunks : List (List Nat)) (hjoin : chunks.flatten = enc) :
    feedAll parse (initReader J) chunks = ⟨[], none, [v], 0⟩ := by
  have hmax : ¬ body.length > MAX_MESSAGE_SIZE := by
    intro hgt
    simp [encodeMessage, hgt] at henc
  have hencEq : enc = toLE4 body.length ++ body := by
    simp [encodeMessage, hmax] at henc
    exact henc.symm
  have hinit : initReader J = midState body v [] := by
    rw [midState, if_pos (by simp)]
    rfl
  rw [hinit]
  have hpre : (([] : List Nat) ++ chunks.flatten) ++ [] = toLE4 body.length ++ body := by
    simp [hjoin, hencEq]
  rw [feedAll_midState parse body v (by omega) hp chunks [] [] hpre]
  rw [midState]
  rw [if_neg (by simp [hjoin, hencEq, toLE4_length])]
  rw [if_neg (by simp [hjoin, hencEq, toLE4_length])]

/-- A concrete serialisation pair for witnesses: a one-byte encoding of `Nat`. -/
def natStringify (n : Nat) : List Nat := [n]

def natParse : List Nat → Option Nat
  | [b] => some b
  | _ => none

/-! ### Bridge (`startBridge` in `native-host/transport.ts`)

Two state machines live in `startBridge`: the host→socket direction with
its bounded `pendingMessages` buffer, and the socket's reconnection
logic (`retryCount`, `reconnecting`) with the line-based `data` handler.
Messages are kept opaque (type parameter `M`); the serialise-and-maybe-
compress step at a successful write (the NM5 block) only shapes the bytes
on the wire and touches neither the buffer nor the retry state, so a
successful write is recorded as the message itself on `sentLines`. -/

def MAX_BUFFER_SIZE : Nat := 1000

structure BridgeState (M : Type) where
  /-- `socket && !socket.destroyed` -/
  socketOpen : Bool
  /-- the `pendingMessages` array, oldest first -/
  pendingMessages : List M
  /-- messages written to the socket -/
  sentLines : List M
  /-- count of `Message buffer full, dropping message` error logs -/
  bufferFullLogs : Nat
deriving Repr, DecidableEq

/-- The `createMessageReader` callback in `startBridge`: a record arriving
from the host is written through when the socket is usable, and otherwise
buffered — but only while the buffer has room; at capacity the incoming
record is discarded with an error log. -/
def onHostRecord {M : Type} (st : BridgeState M) (msg : M) : BridgeState M :=
  if st.socketOpen then
    { st with sentLines := st.sentLines ++ [msg] }
  else if st.pendingMessages.length < MAX_BUFFER_SIZE then
    { st with pendingMessages := st.pendingMessages ++ [msg] }
  else
    { st with bufferFullLogs := st.bufferFullLogs + 1 }

/-- The reconnection state of `connectSocket`, together with the socket
`data` handler's line carry.  `forwarded` records the complete non-empty
lines handed to the parse/decompress/`writeMessage` block (which touches
no reconnection state). -/
structure ReconnState where
  retryCount : Nat
  reconnecting : Bool
  lineBuffer : String
  forwarded : List String
deriving Repr, DecidableEq

/-- The `connect` handler: log, `retryCount = 0`, flush the buffer. -/
def onSocketConnect (st : ReconnState) : ReconnState :=
  { st with retryCount := 0 }

/-- The socket `data` handler: append to the carry, split on newlines,
keep the trailing incomplete line, forward the complete non-empty ones. -/
def onSocketData (st : ReconnState) (data : String) : ReconnState :=
  let combined := st.lineBuffer ++ data
  let parts := combined.splitOn "\n"
  let carry := (parts.getLast?).getD ""
  let lines := parts.dropLast
  { st with
    lineBuffer := carry
    forwarded := st.forwarded ++ lines.filter (fun l => l ≠ "") }

def RECONNECT_INITIAL_DELAY : Nat := 1000
def RECONNECT_MAX_DELAY : Nat := 30000
def RECONNECT_MULTIPLIER : Nat := 2

/-- The `close` handler: when not already reconnecting, compute the
backoff delay from the current `retryCount`, increment it, and arm the
reconnect timer (the returned delay). -/
def onSocketClose (st : ReconnState) : ReconnState × Option Nat :=
  if st.reconnecting then (st, none)
  else
    let delay := min (RECONNECT_INITIAL_DELAY * RECONNECT_MULTIPLIER ^ st.retryCount)
      RECONNECT_MAX_DELAY
    ({ st with reconnecting := true, retryCount := st.retryCount + 1 }, some delay)

/-- The reconnect timer firing: clear `reconnecting` and call
`connectSocket` again. -/
def onReconnectTimer (st : ReconnState) : ReconnState :=
  { st with reconnecting := false }

/-! ### Chunking and compression (`compression.ts`)

`gzipSync`/`gunzipSync` plus the base64 codec are opaque to the embedding
and passed in as a `gunzip` function where needed. -/

def CHUNK_SIZE : Nat := 768 * 1024

structure ChunkedPayload where
  requestId : String
  agentId : String
  chunkIndex : Nat
  totalChunks : Nat
  totalSize : Nat
  compressed : Bool
  data : String
deriving Repr, DecidableEq

/-- `decompressPayload(data, isCompressed)`; `gunzip` stands for the
base64-decode-then-gunzip composite. -/
def decompressPayload (gunzip : String → String) (data : String)
    (isCompressed : Bool) : String :=
  if isCompressed then gunzip data else data

/-- `chunkPayload`: split `data` into `ceil(totalSize / CHUNK_SIZE)`
slices of at most `CHUNK_SIZE`. -/
def chunkPayload (requestId agentId : String) (data : String)
    (compressed : Bool) : List ChunkedPayload :=
  let totalSize := data.length
  let totalChunks := (totalSize + CHUNK_SIZE - 1) / CHUNK_SIZE
  (List.range totalChunks).map (fun i =>
    ⟨requestId, agentId, i, totalChunks, totalSize, compressed,
      ((data.drop (i * CHUNK_SIZE)).take CHUNK_SIZE)⟩)

def chunkLE (a b : ChunkedPayload) : Prop := a.chunkIndex ≤ b.chunkIndex

instance : DecidableRel chunkLE := fun a b => Nat.decLe a.chunkIndex b.chunkIndex

instance : IsTotal ChunkedPayload chunkLE := ⟨fun a b => Nat.le_total a.chunkIndex b.chunkIndex⟩

instance : IsTrans ChunkedPayload chunkLE := ⟨fun _ _ _ h1 h2 => Nat.le_trans h1 h2⟩

/-- `[...chunks].sort((a, b) => a.chunkIndex - b.chunkIndex)`: ECMAScript
`sort` is stable, and a stable sort for the total preorder `chunkLE` is
extensionally unique, so insertion sort (stable) is the same function. -/
def sortByIdx (l : List ChunkedPayload) : List ChunkedPayload := List.insertionSort chunkLE l

/-- `reassembleChunks`: guard against an empty batch, sort ascending by
`chunkIndex`, compare the count against the first chunk's `totalChunks`,
join the data and optionally decompress. -/
def reassembleChunks (gunzip : String → String) (chunks : List ChunkedPayload) :
    Except String String :=
  match sortByIdx chunks with
  | [] => .error "Cannot reassemble: no chunks provided"
  | s0 :: rest =>
    if (s0 :: rest).length ≠ s0.totalChunks then
      .error ("Incomplete chunks: got " ++ toString (s0 :: rest).length ++
        ", expected " ++ toString s0.totalChunks)
    else
      .ok (decompressPayload gunzip
        (String.join ((s0 :: rest).map (fun c => c.data))) s0.compressed)

/-! ### Agent sessions (`agent-session.ts`)

`Date.now()` is the `now` parameter; the `randomUUID()` that would name a
freshly minted session is the `freshToken` parameter. -/

inductive SessionStatus where
  | active
  | idle
  | disconnected
deriving Repr, DecidableEq

structure AgentSessionInfo where
  agentId : String
  sessionToken : String
  agentName : String
  status : SessionStatus
  lastActivity : Nat
  createdAt : Nat
deriving Repr, DecidableEq

abbrev SessionTable := List (String × AgentSessionInfo)

/-- `createSession`: an existing entry is revived in place (`lastActivity`
and `status` only); otherwise a new entry is minted with `freshToken`. -/
def createSession (sessions : SessionTable) (agentId : String)
    (agentName : Option String) (now : Nat) (freshToken : String) :
    AgentSessionInfo × SessionTable :=
  match lookupA agentId sessions with
  | some existing =>
    let s := { existing with lastActivity := now, status := .active }
    (s, updateA agentId s sessions)
  | none =>
    let s : AgentSessionInfo :=
      ⟨agentId, freshToken, agentName.getD agentId, .active, now, now⟩
    (s, sessions ++ [(agentId, s)])

def touchSession (sessions : SessionTable) (agentId : String) (now : Nat) : SessionTable :=
  match lookupA agentId sessions with
  | some s => updateA agentId { s with lastActivity := now } sessions
  | none => sessions

def closeSession (sessions : SessionTable) (agentId : String) : SessionTable :=
  eraseA agentId sessions

/-- `getDefaultAgentId`: the first active session in insertion order, or a
session freshly created for the configured default id. -/
def getDefaultAgentId (sessions : SessionTable) (configuredDefault : String)
    (now : Nat) (freshToken : String) : String × SessionTable :=
  match sessions.find? (fun p => match p.2.status with | .active => true | _ => false) with
  | some p => (p.1, sessions)
  | none =>
    let r := createSession sessions configuredDefault none now freshToken
    (r.1.agentId, r.2)

/-! ### Server core (`server.ts`)

The client-visible value of a tool invocation is
`content: [ ⟨type:'text', text⟩ ]` with `text` the `JSON.stringify` of a
payload object; the payload is modelled structurally (`Payload`), standing
for the JSON value the text parses back to.

The resolve/reject continuations a pending entry holds are the ones
installed by `callExtensionTool` (lines 473–494): `resolve r` produces
`content:[text (stringify r)]`, `reject e` produces
`errObj CDP_ERROR e.message`, the timer produces `errObj TIMEOUT …`, and
the socket-close handler resolves with an `error`-shaped result object.
`handleExtensionMessage`, `fireTimeout` and `handleSocketClose` below
apply those continuations directly, recording the delivered value in
`outputs`.

`socket.destroy()` emits the socket's `close` event asynchronously, after
the current handler returns; `acceptConn` therefore only queues the close
event (`closeQueue`), and `handleSocketClose` models its later
processing. -/

inductive Payload where
  /-- `JSON.stringify` of an opaque worker result value -/
  | result (r : String)
  /-- the default object used when `tool_result.result` is absent -/
  | emptyObj
  /-- an object whose JSON text parses to `error: (code, message)` -/
  | errObj (code message : String)
deriving Repr, DecidableEq

structure ContentItem where
  ty : String
  text : Payload
deriving Repr, DecidableEq

structure ClientResult where
  content : List ContentItem
deriving Repr, DecidableEq

def clientText (p : Payload) : ClientResult := ⟨[⟨"text", p⟩]⟩

structure PendingInfo where
  tool : String
deriving Repr, DecidableEq

/-- The extension-side records `handleExtensionMessage` dispatches on
(`browser_event` and unknown types touch none of the state modelled
here). -/
inductive ExtMsg where
  | toolResult (id : String) (success : Bool) (result : Option String)
      (error : Option (String × String))
  | sessionHeartbeat (agentId : Option String)
  | sessionClose (agentId : Option String)
  | sessionRecovery (agentId : Option String)
  | sessionInit (protocolVersion : Option String)
deriving Repr, DecidableEq

structure ServerState where
  /-- the module-global `extensionSocket` (sockets named by numbers) -/
  extensionSocket : Option Nat
  /-- `health.ts` `setExtensionConnected` flag -/
  connected : Bool
  /-- sockets on which `destroy()` was called -/
  destroyed : List Nat
  /-- destroyed sockets whose `close` event is still to be emitted -/
  closeQueue : List Nat
  /-- the `pendingRequests` map -/
  pending : List (String × PendingInfo)
  /-- client results delivered by resolving a pending request -/
  outputs : List (String × ClientResult)
  sessions : SessionTable
  /-- sockets that were sent the `session_init` record on accept -/
  sentInit : List Nat
deriving Repr, DecidableEq

def TIMEOUTS_MCP_TOOL : Nat := 30000

/-- The per-tool timeout: `wait_for` with a numeric `input.timeout` gets
that timeout plus a 5 s buffer; every other call gets 30 s. -/
def computeToolTimeout (tool : String) (inputTimeout : Option Nat) : Nat :=
  if tool = "wait_for" then
    match inputTimeout with
    | some t => t + 5000
    | none => TIMEOUTS_MCP_TOOL
  else TIMEOUTS_MCP_TOOL

/-- `handleExtensionMessage`.  A `tool_result` with no pending entry is
dropped; with one, the entry is removed and the caller resolved
(`success`) or rejected (wrapped as `CDP_ERROR` by the reject
continuation). -/
def handleExtensionMessage (st : ServerState) (now : Nat) (freshToken : String)
    (m : ExtMsg) : ServerState :=
  match m with
  | .toolResult id success result error =>
    match lookupA id st.pending with
    | none => st
    | some _ =>
      let st1 := { st with pending := eraseA id st.pending }
      if success then
        let payload := match result with
          | some r => Payload.result r
          | none => Payload.emptyObj
        { st1 with outputs := st1.outputs ++ [(id, clientText payload)] }
      else
        let code := match error with
          | some e => e.1
          | none => "UNKNOWN"
        let emsg := match error with
          | some e => e.2
          | none => "Unknown error"
        { st1 with outputs := st1.outputs ++
            [(id, clientText (.errObj "CDP_ERROR" ("[" ++ code ++ "] " ++ emsg)))] }
  | .sessionHeartbeat agentId? =>
    match agentId? with
    | some a => { st with sessions := touchSession st.sessions a now }
    | none => st
  | .sessionClose agentId? =>
    match agentId? with
    | some a => { st with sessions := closeSession st.sessions a }
    | none => st
  | .sessionRecovery agentId? =>
    match agentId? with
    | some a => { st with sessions := (createSession st.sessions a none now freshToken).2 }
    | none => st
  | .sessionInit _ => st

/-- The per-call timer firing (lines 455–471): delete the table entry,
then resolve the caller with `TIMEOUT`. -/
def fireTimeout (st : ServerState) (requestId tool : String) (toolTimeout : Nat) :
    ServerState :=
  { st with
    pending := eraseA requestId st.pending
    outputs := st.outputs ++ [(requestId, clientText (.errObj "TIMEOUT"
      ("Tool '" ++ tool ++ "' timed out after " ++ toString toolTimeout ++ "ms")))] }

/-- The socket `close` handler: clear the reference only if the closing
socket is still the active one, then resolve every pending request with
an `EXTENSION_NOT_CONNECTED` error-shaped result, in table order. -/
def handleSocketClose (st : ServerState) (s : Nat) : ServerState :=
  let st1 := if st.extensionSocket = some s then
      { st with extensionSocket := none, connected := false }
    else st
  { st1 with
    pending := []
    outputs := st1.outputs ++ st1.pending.map (fun p =>
      (p.1, clientText (.errObj "EXTENSION_NOT_CONNECTED"
        "Extension disconnected while request was pending"))) }

/-- The connection handler of `createSocketServer`: destroy a live prior
socket (its `close` event is queued, not processed here), install the new
socket, mark the extension connected, revive the default agent's session
and push `session_init`. -/
def acceptConn (st : ServerState) (newSock : Nat) (configuredDefault : String)
    (now : Nat) (freshToken : String) : ServerState :=
  let st1 := match st.extensionSocket with
    | some s =>
      if s ∈ st.destroyed then st
      else { st with destroyed := st.destroyed ++ [s], closeQueue := st.closeQueue ++ [s] }
    | none => st
  let st2 := { st1 with extensionSocket := some newSock, connected := true }
  let r := getDefaultAgentId st2.sessions configuredDefault now freshToken
  let st3 := { st2 with sessions := (createSession r.2 r.1 none now freshToken).2 }
  { st3 with sentInit := st3.sentInit ++ [newSock] }

/-! ### Extension worker — tool dispatch

`handleToolCall` with the tab manager (`acquireTabLock`,
`isTabInAgentGroup`), the ref-format guard (`sanitizeRef`) and
`inferErrorCode`.  The five handlers that accept an element reference
(`click`, `scroll`, `form_input`, `read_page`, `upload_image`) are
embedded with their control flow up to and including their chrome/CDP
calls, which go through an oracle (`WorkerEnv`) and are recorded in an
`ExtCall` trace; the ref-free handlers are routed to the oracle whole.
Tab ids are `Int` so the `tabId < 0` validation is meaningful. -/

/-- `String.prototype.includes`. -/
def listStartsWith : List Char → List Char → Bool
  | [], _ => true
  | _ :: _, [] => false
  | p :: ps, c :: cs => p == c && listStartsWith ps cs

def containsSubAux (pat : List Char) : List Char → Bool
  | [] => listStartsWith pat []
  | c :: cs => listStartsWith pat (c :: cs) || containsSubAux pat cs

def containsSub (s pat : String) : Bool :=
  containsSubAux pat.toList s.toList

/-- `inferErrorCode`: map a thrown message to a wire error code by
substring tests, in source order. -/
def inferErrorCode (message : String) : String :=
  if containsSub message "does not belong to agent" then "TAB_ACCESS_DENIED"
  else if containsSub message "not found" || containsSub message "No tab" then "TAB_NOT_FOUND"
  else if containsSub message "attach failed" then "DEBUGGER_ATTACH_FAILED"
  else if containsSub message "CDP error" then "CDP_ERROR"
  else if containsSub message "timed out" then "TIMEOUT"
  else if containsSub message "Unknown tool" then "UNKNOWN_TOOL"
  else "INTERNAL_ERROR"

/-- One or more digits. -/
def refDigits : List Char → Bool
  | [] => false
  | l => l.all (fun c => c.isDigit)

def refCoreChars : List Char → Bool
  | 'r' :: 'e' :: 'f' :: '_' :: ds => refDigits ds
  | _ => false

/-- The language of `REF_PATTERN`, the anchored regex
`(find_|page_)?ref_` followed by one or more digits.  A string starting
with `find_` or `page_` cannot also match with the optional group empty
(the core starts with `r`), so the split below is exact. -/
def matchesRefPattern (s : String) : Bool :=
  match s.toList with
  | 'f' :: 'i' :: 'n' :: 'd' :: '_' :: rest => refCoreChars rest
  | 'p' :: 'a' :: 'g' :: 'e' :: '_' :: rest => refCoreChars rest
  | l => refCoreChars l

/-- `sanitizeRef`: `error` models the throw. -/
def sanitizeRef (ref : String) : Except String String :=
  if matchesRefPattern ref then .ok ref
  else .error ("Invalid element ref format: " ++ ref)

/-! Tab manager (`tab-manager.ts`). -/

structure TabLockInfo where
  tabId : Int
  agentId : String
  acquiredAt : Nat
  ttl : Nat
deriving Repr, DecidableEq

abbrev TabLockTable := List (Int × TabLockInfo)

def TAB_LOCK_TTL : Nat := 60000

/-- `acquireTabLock`: break a lock older than its ttl; refuse a live lock
of another agent; refresh `acquiredAt` for the same agent; otherwise set
a fresh lock.  (`Date.now() - acquiredAt` is monus here: a clock earlier
than `acquiredAt` compares `> ttl` false in JS and 0 `> ttl` false here.) -/
def acquireTabLock (locks : TabLockTable) (agentId : String) (tabId : Int)
    (now : Nat) (ttl : Nat) : Bool × TabLockTable :=
  match lookupA tabId locks with
  | some existing =>
    if existing.ttl < now - existing.acquiredAt then
      (true, setA tabId ⟨tabId, agentId, now, ttl⟩ (eraseA tabId locks))
    else if existing.agentId ≠ agentId then
      (false, locks)
    else
      (true, updateA tabId { existing with acquiredAt := now } locks)
  | none => (true, setA tabId ⟨tabId, agentId, now, ttl⟩ locks)

def releaseTabLock (locks : TabLockTable) (agentId : String) (tabId : Int) :
    TabLockTable :=
  match lookupA tabId locks with
  | some lock => if lock.agentId = agentId then eraseA tabId locks else locks
  | none => locks

structure WorkerState where
  /-- `agentGroups`, reduced to the per-agent tab sets the dispatcher reads -/
  groups : List (String × List Int)
  tabLocks : TabLockTable
deriving Repr, DecidableEq

def isTabInAgentGroup (st : WorkerState) (agentId : String) (tabId? : Option Int) : Bool :=
  match lookupA agentId st.groups, tabId? with
  | some tabs, some t => tabs.contains t
  | _, _ => false

/-- `String(tabId)` as it appears in thrown messages. -/
def showTabId : Option Int → String
  | some t => toString t
  | none => "undefined"

/-- `tabAccessCheck`: `some message` models the non-null error string. -/
def tabAccessCheck (st : WorkerState) (agentId : String) (tabId? : Option Int) :
    Option String :=
  if isTabInAgentGroup st agentId tabId? then none
  else some ("Tab " ++ showTabId tabId? ++ " does not belong to agent " ++ agentId)

/-! The dispatcher. -/

structure ToolInput where
  tabId : Option Int
  ref : Option String
  refId : Option String
  coordinate : Option (Int × Int)
  direction : Option String
  value : Option String
  imageId : Option String
  timeout : Option Nat
deriving Repr, DecidableEq

/-- JS truthiness of an optional string (`undefined` and `""` are falsy). -/
def truthy : Option String → Bool
  | some s => s != ""
  | none => false

/-- `input.ref as string` under `REF_PATTERN.test`: an absent value is
coerced to the string `undefined`. -/
def refArg (input : ToolInput) : String := input.ref.getD "undefined"

/-- Outcome of a chrome call: the call rejected, or returned a value that
may carry an `error` property. -/
inductive ScriptOut where
  | thrown (e : String)
  | res (errorField : Option String) (val : String)
deriving Repr, DecidableEq

/-- An external (DOM or CDP) call made by a handler. -/
inductive ExtCall where
  | cdp (tabId : Int) (method detail : String)
  | execScript (tabId : Int) (fn : String)
  | tabsMsg (tabId : Int) (ty : String)
deriving Repr, DecidableEq

/-- The oracle for the browser: results of CDP commands, injected
scripts, content-script messages, and of the handlers that take no
element reference (abstracted whole, with their trace). -/
structure WorkerEnv where
  cdp : Int → String → String → Except String String
  execScript : Int → String → ScriptOut
  tabsMsg : Int → String → ScriptOut
  otherTool : String → ToolInput → List ExtCall × Except String String

/-- `handleClick`: access check, then the ref branch (sanitize before the
injected click) or the coordinate branch (two CDP mouse events). -/
def handleClick (env : WorkerEnv) (st : WorkerState) (agentId : String)
    (input : ToolInput) : List ExtCall × Except String String :=
  match tabAccessCheck st agentId input.tabId with
  | some e => ([], .error e)
  | none =>
    let t := input.tabId.getD 0
    if truthy input.ref then
      match sanitizeRef (refArg input) with
      | .error e => ([], .error e)
      | .ok _ =>
        match env.execScript t "click-by-ref" with
        | .thrown e => ([.execScript t "click-by-ref"], .error e)
        | .res (some e) _ => ([.execScript t "click-by-ref"], .error e)
        | .res none v => ([.execScript t "click-by-ref"], .ok v)
    else
      match input.coordinate with
      | none => ([], .error "TypeError: coordinate is not iterable")
      | some _ =>
        match env.cdp t "Input.dispatchMouseEvent" "mousePressed" with
        | .error e => ([.cdp t "Input.dispatchMouseEvent" "mousePressed"], .error e)
        | .ok _ =>
          match env.cdp t "Input.dispatchMouseEvent" "mouseReleased" with
          | .error e => ([.cdp t "Input.dispatchMouseEvent" "mousePressed",
              .cdp t "Input.dispatchMouseEvent" "mouseReleased"], .error e)
          | .ok _ => ([.cdp t "Input.dispatchMouseEvent" "mousePressed",
              .cdp t "Input.dispatchMouseEvent" "mouseReleased"], .ok "clicked")

/-- `handleScroll`: the scroll-to-ref branch checks the returned error
field; the directional branch needs both coordinate and direction. -/
def handleScroll (env : WorkerEnv) (st : WorkerState) (agentId : String)
    (input : ToolInput) : List ExtCall × Except String String :=
  match tabAccessCheck st agentId input.tabId with
  | some e => ([], .error e)
  | none =>
    let t := input.tabId.getD 0
    if truthy input.ref then
      match sanitizeRef (refArg input) with
      | .error e => ([], .error e)
      | .ok _ =>
        match env.execScript t "scroll-to-ref" with
        | .thrown e => ([.execScript t "scroll-to-ref"], .error e)
        | .res (some e) _ => ([.execScript t "scroll-to-ref"], .error e)
        | .res none v => ([.execScript t "scroll-to-ref"], .ok v)
    else
      match input.coordinate, input.direction with
      | some _, some _ =>
        match env.cdp t "Input.dispatchMouseEvent" "mouseWheel" with
        | .error e => ([.cdp t "Input.dispatchMouseEvent" "mouseWheel"], .error e)
        | .ok _ => ([.cdp t "Input.dispatchMouseEvent" "mouseWheel"], .ok "scrolled")
      | _, _ =>
        ([], .error "Either \"ref\" or \"coordinate\" + \"direction\" must be provided")

/-- `handleFormInput`: NOTE the source sanitizes the (mandatory) ref
before the tab access check; the returned error field is not checked. -/
def handleFormInput (env : WorkerEnv) (st : WorkerState) (agentId : String)
    (input : ToolInput) : List ExtCall × Except String String :=
  match sanitizeRef (refArg input) with
  | .error e => ([], .error e)
  | .ok _ =>
    match tabAccessCheck st agentId input.tabId with
    | some e => ([], .error e)
    | none =>
      let t := input.tabId.getD 0
      match env.execScript t "form-input" with
      | .thrown e => ([.execScript t "form-input"], .error e)
      | .res _ v => ([.execScript t "form-input"], .ok v)

def connectionError (msg : String) : Bool :=
  containsSub msg "Receiving end does not exist" ||
    containsSub msg "Could not establish connection"

/-- The catch block of `handleReadPage`: rethrow a real error, fall back
to an injected script only on connection errors (or an empty message). -/
def readPageCatch (env : WorkerEnv) (t : Int) (e : String) :
    List ExtCall × Except String String :=
  if e ≠ "" ∧ ¬ connectionError e then
    ([.tabsMsg t "viyv-build-a11y-tree"], .error e)
  else
    match env.execScript t "a11y-tree-fallback" with
    | .thrown e2 =>
      ([.tabsMsg t "viyv-build-a11y-tree", .execScript t "a11y-tree-fallback"], .error e2)
    | .res (some e2) _ =>
      ([.tabsMsg t "viyv-build-a11y-tree", .execScript t "a11y-tree-fallback"], .error e2)
    | .res none v =>
      ([.tabsMsg t "viyv-build-a11y-tree", .execScript t "a11y-tree-fallback"], .ok v)

/-- `handleReadPage`: access check, sanitize a truthy `refId`, message the
content script, propagate its `error` through the catch block. -/
def handleReadPage (env : WorkerEnv) (st : WorkerState) (agentId : String)
    (input : ToolInput) : List ExtCall × Except String String :=
  match tabAccessCheck st agentId input.tabId with
  | some e => ([], .error e)
  | none =>
    let t := input.tabId.getD 0
    let sanitized : Except String Unit :=
      if truthy input.refId then
        match sanitizeRef (input.refId.getD "") with
        | .error e => .error e
        | .ok _ => .ok ()
      else .ok ()
    match sanitized with
    | .error e => ([], .error e)
    | .ok _ =>
      match env.tabsMsg t "viyv-build-a11y-tree" with
      | .res none v => ([.tabsMsg t "viyv-build-a11y-tree"], .ok v)
      | .res (some e) _ => readPageCatch env t e
      | .thrown e => readPageCatch env t e

/-- `handleUploadImage`: access check, require ref or coordinate, then
sanitize a truthy ref before the injected upload; the coordinate branch
returns the script result without an error-field check. -/
def handleUploadImage (env : WorkerEnv) (st : WorkerState) (agentId : String)
    (input : ToolInput) : List ExtCall × Except String String :=
  match tabAccessCheck st agentId input.tabId with
  | some e => ([], .error e)
  | none =>
    let t := input.tabId.getD 0
    if ¬ truthy input.ref ∧ input.coordinate = none then
      ([], .error "Either \"ref\" or \"coordinate\" must be specified")
    else if truthy input.ref then
      match sanitizeRef (refArg input) with
      | .error e => ([], .error e)
      | .ok _ =>
        match env.execScript t "upload-by-ref" with
        | .thrown e => ([.execScript t "upload-by-ref"], .error e)
        | .res (some e) _ => ([.execScript t "upload-by-ref"], .error e)
        | .res none v => ([.execScript t "upload-by-ref"], .ok v)
    else
      match env.execScript t "upload-by-coordinate" with
      | .thrown e => ([.execScript t "upload-by-coordinate"], .error e)
      | .res _ v => ([.execScript t "upload-by-coordinate"], .ok v)

/-- The `CDP_TOOLS` set (NM4). -/
def CDP_TOOLS : List String :=
  ["click", "type", "key", "scroll", "hover", "drag", "javascript_exec", "screenshot",
   "read_page", "find", "form_input", "get_page_text", "handle_dialog",
   "read_console_messages", "read_network_requests", "resize_window", "gif_creator",
   "artifact_from_page", "page_data_extract"]

/-- Every case label of the `dispatchTool` switch. -/
def KNOWN_TOOLS : List String :=
  ["navigate", "screenshot", "click", "type", "key", "scroll", "hover", "drag",
   "read_page", "find", "form_input", "javascript_exec", "wait_for", "get_page_text",
   "handle_dialog", "tabs_context", "tabs_create", "tab_close", "select_tab",
   "read_console_messages", "read_network_requests", "resize_window",
   "agent_tab_assign", "agent_tab_list", "browser_health", "gif_creator",
   "upload_image", "update_plan", "browser_event_subscribe", "browser_event_unsubscribe",
   "artifact_from_page", "page_data_extract", "shortcuts_list", "shortcuts_execute"]

def dispatchToolSwitch (env : WorkerEnv) (st : WorkerState) (agentId tool : String)
    (input : ToolInput) : List ExtCall × Except String String :=
  match tool with
  | "click" => handleClick env st agentId input
  | "scroll" => handleScroll env st agentId input
  | "form_input" => handleFormInput env st agentId input
  | "read_page" => handleReadPage env st agentId input
  | "upload_image" => handleUploadImage env st agentId input
  | _ =>
    if KNOWN_TOOLS.contains tool then env.otherTool tool input
    else ([], .error ("Unknown tool: " ++ tool))

/-- `dispatchTool`: the basic tabId validation, then the switch. -/
def dispatchTool (env : WorkerEnv) (st : WorkerState) (agentId tool : String)
    (input : ToolInput) : List ExtCall × Except String String :=
  match input.tabId with
  | some t =>
    if t < 0 then ([], .error ("Invalid tabId: " ++ toString t))
    else dispatchToolSwitch env st agentId tool input
  | none => dispatchToolSwitch env st agentId tool input

/-- The worker's tool result union. -/
inductive ToolResultW where
  | success (result : String)
  | failure (code message : String)
deriving Repr, DecidableEq

/-- Dispatch with the try/catch of `handleToolCall`: a thrown message is
turned into a failure via `inferErrorCode`. -/
def runDispatch (env : WorkerEnv) (st : WorkerState) (agentId tool : String)
    (input : ToolInput) : ToolResultW × List ExtCall :=
  let d := dispatchTool env st agentId tool input
  match d.2 with
  | .ok v => (.success v, d.1)
  | .error m => (.failure (inferErrorCode m) m, d.1)

/-- `handleToolCall`: permission check (always granted in the source),
tab-lock acquisition for CDP tools with a present `tabId` (early
`TAB_LOCKED` return on refusal, before any dispatch), dispatch under
try/catch, and the `finally` that releases the lock. -/
def handleToolCall (env : WorkerEnv) (st : WorkerState) (now : Nat)
    (agentId tool : String) (input : ToolInput) :
    ToolResultW × WorkerState × List ExtCall :=
  match input.tabId with
  | some t =>
    if CDP_TOOLS.contains tool then
      let r := acquireTabLock st.tabLocks agentId t now TAB_LOCK_TTL
      if r.1 then
        let st1 := { st with tabLocks := r.2 }
        let d := runDispatch env st1 agentId tool input
        (d.1, { st1 with tabLocks := releaseTabLock st1.tabLocks agentId t }, d.2)
      else
        (.failure "TAB_LOCKED" ("Tab " ++ toString t ++ " is locked by another agent"),
          st, [])
    else
      let d := runDispatch env st agentId tool input
      (d.1, st, d.2)
  | none =>
    let d := runDispatch env st agentId tool input
    (d.1, st, d.2)

/-- The `tool_result` record the worker sends back for a dispatch outcome
(the envelope's `id`/`agentId`/`timestamp` are read back only through the
fields modelled in `ExtMsg`). -/
def toolResultMsg (id : String) (r : ToolResultW) : ExtMsg :=
  match r with
  | .success v => .toolResult id true (some v) none
  | .failure c m => .toolResult id false none (some (c, m))

/-! ### The claims -/

/-- C6: for every JSON value whose UTF-8 serialisation is at most
1 048 576 bytes, encoding it with `encodeMessage` and feeding the
resulting bytes to the framed-transport decoder — under any partitioning
of those bytes into successive read chunks — yields exactly that value
back via `onMessage`, with no decoder errors. -/
theorem C6_framed_roundtrip {J : Type} (parse : List Nat → Option J)
    (stringify : J → List Nat) (v : J)
    (hp : parse (stringify v) = some v)
    (hlen : (stringify v).length ≤ MAX_MESSAGE_SIZE)
    (enc : List Nat) (henc : encodeMessage (stringify v) = some enc)
    (chunks : List (List Nat)) (hjoin : chunks.flatten = enc) :
    (feedAll parse (initReader J) chunks).msgs = [v] ∧
      (feedAll parse (initReader J) chunks).errs = 0 := by
  rw [feedAll_encodeMessage parse (stringify v) v hp enc henc chunks hjoin]
  exact ⟨rfl, rfl⟩

/-- Witness for C6: the value 7 under a one-byte codec, encoded and fed
in three chunks that split the length header. -/
theorem C6_framed_roundtrip_witness :
    (feedAll natParse (initReader Nat) [[1], [0, 0], [0, 7]]).msgs = [7] ∧
      (feedAll natParse (initReader Nat) [[1], [0, 0], [0, 7]]).errs = 0 :=
  C6_framed_roundtrip natParse natStringify 7 rfl (by decide) [1, 0, 0, 0, 7]
    (by decide) [[1], [0, 0], [0, 7]] (by decide)

def c3State : BridgeState Nat := ⟨false, List.range 1000, [], 0⟩

set_option maxRecDepth 8000 in
/-- C3 counterexample: socket closed, 1000 records buffered, record 1000
arrives — the claim says the oldest buffered record is dropped and the
newcomer retained, but the code leaves the buffer unchanged (oldest 0
still present, 1000 absent) and only logs an error. -/
theorem C3_counterexample :
    (onHostRecord c3State 1000).pendingMessages = List.range 1000 ∧
      1000 ∉ (onHostRecord c3State 1000).pendingMessages ∧
      0 ∈ (onHostRecord c3State 1000).pendingMessages ∧
      (onHostRecord c3State 1000).bufferFullLogs = 1 := by
  have h1 : c3State.socketOpen = false := rfl
  have h2 : c3State.pendingMessages.length = MAX_BUFFER_SIZE := by
    show (List.range 1000).length = MAX_BUFFER_SIZE
    simp [MAX_BUFFER_SIZE]
  have h : onHostRecord c3State 1000 = { c3State with bufferFullLogs := 1 } := by
    rw [onHostRecord, h1, h2]
    simp
    exact ⟨h1, rfl⟩
  rw [h]
  refine ⟨rfl, ?_, ?_, rfl⟩
  · show (1000 : Nat) ∉ List.range 1000
    simp [List.mem_range]
  · show (0 : Nat) ∈ List.range 1000
    simp [List.mem_range]

/-- C3 (amended): when the socket is not open and the pending buffer is
full, the newly arrived record is dropped (an error is logged) and the
buffered records are left unchanged. -/
theorem C3_buffer_full_drops_newest {M : Type} (st : BridgeState M) (msg : M)
    (hclosed : st.socketOpen = false)
    (hfull : st.pendingMessages.length = MAX_BUFFER_SIZE) :
    onHostRecord st msg = { st with bufferFullLogs := st.bufferFullLogs + 1 } := by
  rw [onHostRecord, hclosed, hfull]
  simp

set_option maxRecDepth 8000 in
/-- Witness for C3 (amended) at the full buffer of `c3State`. -/
theorem C3_buffer_full_drops_newest_witness :
    onHostRecord c3State 1000 = { c3State with bufferFullLogs := 1 } :=
  C3_buffer_full_drops_newest c3State 1000 rfl
    (by show (List.range 1000).length = MAX_BUFFER_SIZE; simp [MAX_BUFFER_SIZE])

def c4State : ReconnState := ⟨3, false, "", []⟩

/-- C4 counterexample: the claim says the retry counter is reset exactly
upon the first record after a connect and not by the connect alone; in
the code `retryCount` is zeroed by the connect handler itself, and a
received record leaves it at 3. -/
theorem C4_counterexample :
    (onSocketConnect c4State).retryCount = 0 ∧
      (onSocketData c4State "rec\n").retryCount = 3 ∧ (3 : Nat) ≠ 0 :=
  ⟨rfl, rfl, by decide⟩

/-- C4 (amended): `retryCount` is reset to zero by the `connect` handler
itself; the socket `data` handler (record receipt) changes neither
`retryCount` nor `reconnecting`. -/
theorem C4_retry_reset_on_connect (st : ReconnState) (data : String) :
    (onSocketConnect st).retryCount = 0 ∧
      (onSocketData st data).retryCount = st.retryCount ∧
      (onSocketData st data).reconnecting = st.reconnecting :=
  ⟨rfl, rfl, rfl⟩

/-- C10: `createSession` for an agent that already has an entry returns
that entry with `sessionToken` and `createdAt` unchanged, only setting
`status` to active and refreshing `lastActivity`; consequently the
`session_recovery` branch never mints a new token for such an agent, and
the inbound `session_init` branch touches no state at all. -/
theorem C10_createSession_preserves_token (st : ServerState) (agentId : String)
    (s : AgentSessionInfo) (agentName : Option String) (now : Nat)
    (freshToken : String) (pv : Option String)
    (hlook : lookupA agentId st.sessions = some s) :
    (createSession st.sessions agentId agentName now freshToken).1.sessionToken
        = s.sessionToken ∧
      (createSession st.sessions agentId agentName now freshToken).1.createdAt
        = s.createdAt ∧
      (createSession st.sessions agentId agentName now freshToken).1.status
        = .active ∧
      (createSession st.sessions agentId agentName now freshToken).1.lastActivity
        = now ∧
      (createSession st.sessions agentId agentName now freshToken).2
        = updateA agentId { s with lastActivity := now, status := .active } st.sessions ∧
      lookupA agentId (handleExtensionMessage st now freshToken
          (.sessionRecovery (some agentId))).sessions
        = some { s with lastActivity := now, status := .active } ∧
      handleExtensionMessage st now freshToken (.sessionInit pv) = st := by
  refine ⟨?_, ?_, ?_, ?_, ?_, ?_, rfl⟩ <;>
    simp [createSession, hlook, handleExtensionMessage, lookupA_updateA_self _ _ _ _ hlook]

def c10Session : AgentSessionInfo := ⟨"agent1", "tok-1", "agent1", .active, 5, 5⟩

def c10State : ServerState :=
  ⟨some 1, true, [], [], [], [], [("agent1", c10Session)], []⟩

/-- Witness for C10: reviving `agent1` at time 99 with a candidate fresh
token keeps the original token `tok-1`. -/
theorem C10_createSession_preserves_token_witness :
    (createSession c10State.sessions "agent1" none 99 "tok-2").1.sessionToken = "tok-1" ∧
      (createSession c10State.sessions "agent1" none 99 "tok-2").1.createdAt = 5 ∧
      lookupA "agent1" (handleExtensionMessage c10State 99 "tok-2"
          (.sessionRecovery (some "agent1"))).sessions
        = some ⟨"agent1", "tok-1", "agent1", .active, 99, 5⟩ := by
  have h := C10_createSession_preserves_token c10State "agent1" c10Session none 99
    "tok-2" none (by decide)
  exact ⟨h.1, h.2.1, h.2.2.2.2.2.1⟩

/-- C7: a pending tool call with no matching result at its deadline is
resolved exactly once with `TIMEOUT` — the timer removes the table entry
and appends the one `TIMEOUT` result — and a matching `tool_result`
arriving after the deadline finds no entry and is dropped with no effect
on the table or the caller. -/
theorem C7_timeout_discipline (st : ServerState) (id : String) (info : PendingInfo)
    (toolTimeout now : Nat) (tok : String) (success : Bool) (result : Option String)
    (error : Option (String × String))
    (hp : lookupA id st.pending = some info)
    (hnodup : (st.pending.map Prod.fst).Nodup) :
    lookupA id (fireTimeout st id info.tool toolTimeout).pending = none ∧
      (fireTimeout st id info.tool toolTimeout).outputs
        = st.outputs ++ [(id, clientText (.errObj "TIMEOUT"
            ("Tool '" ++ info.tool ++ "' timed out after " ++ toString toolTimeout ++ "ms")))] ∧
      handleExtensionMessage (fireTimeout st id info.tool toolTimeout) now tok
          (.toolResult id success result error)
        = fireTimeout st id info.tool toolTimeout := by
  have h1 : lookupA id (fireTimeout st id info.tool toolTimeout).pending = none := by
    simp only [fireTimeout]
    exact lookupA_eraseA_of_nodup id st.pending hnodup
  refine ⟨h1, rfl, ?_⟩
  simp only [handleExtensionMessage, h1]

def c7State : ServerState :=
  ⟨some 1, true, [], [], [("r1", ⟨"wait_for"⟩)], [], [], []⟩

/-- Witness for C7: scenario S3 — `wait_for` with `input.timeout = 100`
gets a 5100 ms deadline; the timer resolves it with `TIMEOUT`, and the
late result is dropped. -/
theorem C7_timeout_discipline_witness :
    lookupA "r1" (fireTimeout c7State "r1" "wait_for"
        (computeToolTimeout "wait_for" (some 100))).pending = none ∧
      (fireTimeout c7State "r1" "wait_for"
          (computeToolTimeout "wait_for" (some 100))).outputs
        = [("r1", clientText (.errObj "TIMEOUT"
            "Tool 'wait_for' timed out after 5100ms"))] ∧
      handleExtensionMessage (fireTimeout c7State "r1" "wait_for"
            (computeToolTimeout "wait_for" (some 100))) 0 "tok"
          (.toolResult "r1" true (some "late") none)
        = fireTimeout c7State "r1" "wait_for" (computeToolTimeout "wait_for" (some 100)) := by
  have h := C7_timeout_discipline c7State "r1" ⟨"wait_for"⟩
    (computeToolTimeout "wait_for" (some 100)) 0 "tok" true (some "late") none
    (by decide) (by decide)
  exact ⟨h.1, h.2.1, h.2.2⟩

def c1Worker : WorkerState := ⟨[("default", [1])], []⟩

def c1Env : WorkerEnv :=
  ⟨fun _ _ _ => .ok "ok", fun _ _ => .res none "ok", fun _ _ => .res none "ok",
    fun _ _ => ([], .ok "ok")⟩

def c1Input : ToolInput := ⟨some 99, none, none, none, none, none, none, none⟩

def c1Server : ServerState := ⟨some 1, true, [], [], [("r1", ⟨"click"⟩)], [], [], []⟩

/-- C1 counterexample: a `click` on tab 99 (not in agent `default`'s
group) fails in the worker with code `TAB_ACCESS_DENIED`, but the client
result's text parses to an error object whose `code` is the hard-coded
`CDP_ERROR` of the reject continuation — not `TAB_ACCESS_DENIED`, which
survives only inside the bracketed message. -/
theorem C1_counterexample :
    (handleToolCall c1Env c1Worker 0 "default" "click" c1Input).1
      = .failure "TAB_ACCESS_DENIED" "Tab 99 does not belong to agent default" ∧
      (handleExtensionMessage c1Server 0 "tok" (toolResultMsg "r1"
          (handleToolCall c1Env c1Worker 0 "default" "click" c1Input).1)).outputs
        = [("r1", clientText (.errObj "CDP_ERROR"
            "[TAB_ACCESS_DENIED] Tab 99 does not belong to agent default"))] ∧
      "CDP_ERROR" ≠ "TAB_ACCESS_DENIED" := by
  refine ⟨by decide, by decide, by decide⟩

/-- C1 (amended): a failed `tool_result` whose error code is
`TAB_ACCESS_DENIED` resolves the matching pending call with
`content:[ ⟨text, payload⟩ ]` where the payload parses to
`error:(code, message)` — but `code` is `CDP_ERROR`, and the message is
`[TAB_ACCESS_DENIED] ` followed by the worker's message. -/
theorem C1_failed_result_wrapped_as_cdp_error (st : ServerState) (id : String)
    (info : PendingInfo) (m : String) (now : Nat) (tok : String)
    (hp : lookupA id st.pending = some info) :
    (handleExtensionMessage st now tok
        (.toolResult id false none (some ("TAB_ACCESS_DENIED", m)))).outputs
      = st.outputs ++
        [(id, clientText (.errObj "CDP_ERROR" ("[TAB_ACCESS_DENIED] " ++ m)))] := by
  simp [handleExtensionMessage, hp]

/-- Witness for C1 (amended) at the concrete pending request `r1`. -/
theorem C1_failed_result_wrapped_as_cdp_error_witness :
    (handleExtensionMessage c1Server 0 "tok"
        (.toolResult "r1" false none (some ("TAB_ACCESS_DENIED", "nope")))).outputs
      = [("r1", clientText (.errObj "CDP_ERROR" "[TAB_ACCESS_DENIED] nope"))] := by
  have h := C1_failed_result_wrapped_as_cdp_error c1Server "r1" ⟨"click"⟩ "nope" 0 "tok"
    (by decide)
  exact h

def c5State : ServerState := ⟨some 1, true, [], [], [("r1", ⟨"navigate"⟩)], [], [], []⟩

/-- C5 counterexample: accepting socket 2 while socket 1 is live with
request `r1` outstanding installs the new socket immediately — after the
accept handler the request is still pending and unresolved (nothing in
`outputs`), and the extension is marked connected throughout; the claimed
resolve-all-then-install sequence does not happen. -/
theorem C5_counterexample :
    (acceptConn c5State 2 "default" 0 "tok").extensionSocket = some 2 ∧
      (acceptConn c5State 2 "default" 0 "tok").pending = [("r1", ⟨"navigate"⟩)] ∧
      (acceptConn c5State 2 "default" 0 "tok").outputs = [] ∧
      (acceptConn c5State 2 "default" 0 "tok").connected = true ∧
      (acceptConn c5State 2 "default" 0 "tok").closeQueue = [1] := by
  refine ⟨by decide, by decide, by decide, by decide, by decide⟩

/-- C5 (amended): on accept over a live socket, the prior socket is
destroyed (its close event queued) and the new socket installed at once,
with the pending table untouched; when the queued close event fires the
stored reference (now the new socket) and the connected flag are left
intact, and every request pending at that moment — including ones issued
after the new socket was installed — is resolved with
`EXTENSION_NOT_CONNECTED`; a `tool_result` processed after that close
finds no pending entry and is dropped, so no result sent over the stale
socket's lifetime is ever delivered late. -/
theorem C5_socket_replacement (st st' : ServerState) (s newSock : Nat)
    (cfg : String) (now : Nat) (tok : String) (id : String) (success : Bool)
    (result : Option String) (error : Option (String × String))
    (hs : st.extensionSocket = some s) (hlive : s ∉ st.destroyed)
    (hcur : st'.extensionSocket ≠ some s) :
    ((acceptConn st newSock cfg now tok).extensionSocket = some newSock ∧
      (acceptConn st newSock cfg now tok).connected = true ∧
      (acceptConn st newSock cfg now tok).destroyed = st.destroyed ++ [s] ∧
      (acceptConn st newSock cfg now tok).closeQueue = st.closeQueue ++ [s] ∧
      (acceptConn st newSock cfg now tok).pending = st.pending ∧
      (acceptConn st newSock cfg now tok).outputs = st.outputs) ∧
    ((handleSocketClose st' s).extensionSocket = st'.extensionSocket ∧
      (handleSocketClose st' s).connected = st'.connected ∧
      (handleSocketClose st' s).pending = [] ∧
      (handleSocketClose st' s).outputs = st'.outputs ++ st'.pending.map (fun p =>
        (p.1, clientText (.errObj "EXTENSION_NOT_CONNECTED"
          "Extension disconnected while request was pending")))) ∧
    handleExtensionMessage (handleSocketClose st' s) now tok
        (.toolResult id success result error)
      = handleSocketClose st' s := by
  refine ⟨?_, ?_, ?_⟩
  · simp [acceptConn, hs, hlive]
  · simp [handleSocketClose, hcur]
  · have hemp : lookupA id (handleSocketClose st' s).pending = none := by
      simp [handleSocketClose]
      rfl
    simp only [handleExtensionMessage, hemp]

/-- Witness for C5 (amended): the accept of socket 2 over live socket 1,
then the queued close of socket 1. -/
theorem C5_socket_replacement_witness :
    ((acceptConn c5State 2 "default" 0 "tok").extensionSocket = some 2 ∧
      (acceptConn c5State 2 "default" 0 "tok").connected = true ∧
      (acceptConn c5State 2 "default" 0 "tok").destroyed = c5State.destroyed ++ [1] ∧
      (acceptConn c5State 2 "default" 0 "tok").closeQueue = c5State.closeQueue ++ [1] ∧
      (acceptConn c5State 2 "default" 0 "tok").pending = c5State.pending ∧
      (acceptConn c5State 2 "default" 0 "tok").outputs = c5State.outputs) ∧
    ((handleSocketClose (acceptConn c5State 2 "default" 0 "tok") 1).extensionSocket
        = (acceptConn c5State 2 "default" 0 "tok").extensionSocket ∧
      (handleSocketClose (acceptConn c5State 2 "default" 0 "tok") 1).connected
        = (acceptConn c5State 2 "default" 0 "tok").connected ∧
      (handleSocketClose (acceptConn c5State 2 "default" 0 "tok") 1).pending = [] ∧
      (handleSocketClose (acceptConn c5State 2 "default" 0 "tok") 1).outputs
        = (acceptConn c5State 2 "default" 0 "tok").outputs ++
          (acceptConn c5State 2 "default" 0 "tok").pending.map (fun p =>
            (p.1, clientText (.errObj "EXTENSION_NOT_CONNECTED"
              "Extension disconnected while request was pending")))) ∧
    handleExtensionMessage
        (handleSocketClose (acceptConn c5State 2 "default" 0 "tok") 1) 0 "tok"
        (.toolResult "r1" true (some "late") none)
      = handleSocketClose (acceptConn c5State 2 "default" 0 "tok") 1 :=
  C5_socket_replacement c5State (acceptConn c5State 2 "default" 0 "tok") 1 2
    "default" 0 "tok" "r1" true (some "late") none (by decide) (by decide) (by decide)

/-- The data of the unique chunk carrying index `i` (the reference order
for stating what reassembly returns). -/
def dataAtIndex (chunks : List ChunkedPayload) (i : Nat) : String :=
  match chunks.find? (fun c => c.chunkIndex == i) with
  | some c => c.data
  | none => ""

theorem sortByIdx_perm (l : List ChunkedPayload) : (sortByIdx l).Perm l :=
  List.perm_insertionSort chunkLE l

theorem sortByIdx_map_sorted (l : List ChunkedPayload) :
    List.Sorted (· ≤ ·) ((sortByIdx l).map ChunkedPayload.chunkIndex) :=
  List.pairwise_map.mpr (List.sorted_insertionSort chunkLE l)

theorem find?_idx_eq_of_mem_of_nodup (chunks : List ChunkedPayload)
    (c : ChunkedPayload) (hmem : c ∈ chunks)
    (hnodup : (chunks.map ChunkedPayload.chunkIndex).Nodup) :
    chunks.find? (fun x => x.chunkIndex == c.chunkIndex) = some c := by
  induction chunks with
  | nil => cases hmem
  | cons d rest ih =>
    simp only [List.map_cons, List.nodup_cons] at hnodup
    rcases List.mem_cons.mp hmem with rfl | hmem'
    · simp [List.find?]
    · have hne : d.chunkIndex ≠ c.chunkIndex := by
        intro he
        exact hnodup.1 (he ▸ List.mem_map_of_mem ChunkedPayload.chunkIndex hmem')
      rw [List.find?_cons_of_neg _ (by simpa using hne)]
      exact ih hmem' hnodup.2

def c9Chunk0 : ChunkedPayload := ⟨"r1", "a", 0, 2, 4, false, "ab"⟩

def c9Chunk2 : ChunkedPayload := ⟨"r1", "a", 2, 2, 4, false, "cd"⟩

/-- C9 counterexample: two chunks with shared `requestId`, `totalChunks`
2, `totalSize` and `compressed`, but indices 0 and 2 — index 1 in the
range `0 .. totalChunks−1` is missing, yet reassembly does not fail: the
count-only check passes and `abcd` is returned. -/
theorem C9_counterexample :
    reassembleChunks id [c9Chunk0, c9Chunk2] = .ok "abcd" ∧
      (1 : Nat) ∉ [c9Chunk0, c9Chunk2].map ChunkedPayload.chunkIndex ∧
      [c9Chunk0, c9Chunk2].map ChunkedPayload.totalChunks = [2, 2] ∧
      (1 : Nat) < 2 :=
  ⟨by rfl, by decide, by decide, by decide⟩

/-- Unfolding of `reassembleChunks` once the sorted list is known. -/
theorem reassembleChunks_eq_cons (gunzip : String → String)
    (chunks : List ChunkedPayload) (s0 : ChunkedPayload) (rest : List ChunkedPayload)
    (hs : sortByIdx chunks = s0 :: rest) :
    reassembleChunks gunzip chunks =
      if (s0 :: rest).length ≠ s0.totalChunks then
        .error ("Incomplete chunks: got " ++ toString (s0 :: rest).length ++
          ", expected " ++ toString s0.totalChunks)
      else
        .ok (decompressPayload gunzip
          (String.join ((s0 :: rest).map (fun c => c.data))) s0.compressed) := by
  rw [reassembleChunks, hs]

/-- C9 (amended): reassembly fails exactly when the number of chunks
differs from `totalChunks` — in particular whenever the chunk indices are
distinct and in range and one of `0 .. totalChunks−1` is missing; and for
a set whose indices are exactly `0 .. totalChunks−1`, it returns the
concatenation of the data in ascending `chunkIndex` order, gzip-decoded
when `compressed` is set. -/
theorem C9_reassembly (gunzip : String → String) (chunks : List ChunkedPayload)
    (n : Nat) (cpr : Bool)
    (htc : ∀ c ∈ chunks, c.totalChunks = n)
    (hcp : ∀ c ∈ chunks, c.compressed = cpr) :
    ((chunks.map ChunkedPayload.chunkIndex).Nodup →
      (∀ c ∈ chunks, c.chunkIndex < n) →
      (∃ i, i < n ∧ i ∉ chunks.map ChunkedPayload.chunkIndex) →
      chunks ≠ [] →
      ∃ e, reassembleChunks gunzip chunks = .error e) ∧
    ((chunks.map ChunkedPayload.chunkIndex).Perm (List.range n) → 0 < n →
      reassembleChunks gunzip chunks
        = .ok (decompressPayload gunzip
            (String.join ((List.range n).map (dataAtIndex chunks))) cpr)) := by
  constructor
  · rintro hnodup hlt ⟨i, hi, hnotin⟩ hne
    -- the chunk count is short of `n`
    have hlen : chunks.length < n := by
      have hcard : (chunks.map ChunkedPayload.chunkIndex).toFinset.card
          = chunks.length := by
        rw [List.card_toFinset, hnodup.dedup, List.length_map]
      have hsub : (chunks.map ChunkedPayload.chunkIndex).toFinset
          ⊆ (Finset.range n).erase i := by
        intro x hx
        rw [List.mem_toFinset] at hx
        obtain ⟨c, hc, rfl⟩ := List.mem_map.mp hx
        refine Finset.mem_erase.mpr ⟨?_, Finset.mem_range.mpr (hlt c hc)⟩
        intro he
        exact hnotin (he ▸ hx)
      have := Finset.card_le_card hsub
      rw [hcard, Finset.card_erase_of_mem (Finset.mem_range.mpr hi),
        Finset.card_range] at this
      omega
    have hsort := sortByIdx_perm chunks
    have hslen : (sortByIdx chunks).length = chunks.length := hsort.length_eq
    have hsne : sortByIdx chunks ≠ [] := by
      intro hnil
      apply hne
      apply List.length_eq_zero.mp
      rw [← hslen, hnil]
      rfl
    obtain ⟨s0, rest, hs⟩ := List.exists_cons_of_ne_nil hsne
    have hs0 : s0 ∈ chunks := hsort.subset (hs ▸ List.mem_cons_self s0 rest)
    have hcount : (s0 :: rest).length ≠ s0.totalChunks := by
      rw [← hs, hslen, htc s0 hs0]
      omega
    exact ⟨_, by rw [reassembleChunks_eq_cons gunzip chunks s0 rest hs, if_pos hcount]⟩
  · intro hperm hn0
    have hlenc : chunks.length = n := by
      have := hperm.length_eq
      simpa using this
    have hne : chunks ≠ [] := by
      intro hnil
      rw [hnil] at hlenc
      simp at hlenc
      omega
    have hsort := sortByIdx_perm chunks
    have hslen : (sortByIdx chunks).length = chunks.length := hsort.length_eq
    have hsne : sortByIdx chunks ≠ [] := by
      intro hnil
      apply hne
      apply List.length_eq_zero.mp
      rw [← hslen, hnil]
      rfl
    obtain ⟨s0, rest, hs⟩ := List.exists_cons_of_ne_nil hsne
    have hs0 : s0 ∈ chunks := hsort.subset (hs ▸ List.mem_cons_self s0 rest)
    have hcount : ¬ (s0 :: rest).length ≠ s0.totalChunks := by
      rw [← hs, hslen, htc s0 hs0, hlenc]
      omega
    have hnodup : (chunks.map ChunkedPayload.chunkIndex).Nodup :=
      hperm.nodup_iff.mpr (List.nodup_range n)
    have hmapidx : (sortByIdx chunks).map ChunkedPayload.chunkIndex = List.range n := by
      haveI : IsAntisymm Nat (fun a b => a ≤ b) := ⟨fun _ _ h1 h2 => Nat.le_antisymm h1 h2⟩
      exact List.eq_of_perm_of_sorted (r := fun a b => a ≤ b)
        ((hsort.map _).trans hperm) (sortByIdx_map_sorted chunks) (List.sorted_le_range n)
    have hpoint : ∀ c ∈ sortByIdx chunks,
        c.data = dataAtIndex chunks c.chunkIndex := by
      intro c hc
      rw [dataAtIndex, find?_idx_eq_of_mem_of_nodup chunks c (hsort.subset hc) hnodup]
    have hdata : (sortByIdx chunks).map ChunkedPayload.data
        = (List.range n).map (dataAtIndex chunks) := by
      calc (sortByIdx chunks).map ChunkedPayload.data
          = (sortByIdx chunks).map
              (fun c => dataAtIndex chunks c.chunkIndex) := List.map_congr_left hpoint
        _ = ((sortByIdx chunks).map ChunkedPayload.chunkIndex).map
              (dataAtIndex chunks) := by rw [List.map_map]; rfl
        _ = (List.range n).map (dataAtIndex chunks) := by rw [hmapidx]
    rw [reassembleChunks_eq_cons gunzip chunks s0 rest hs, if_neg hcount,
      hcp s0 hs0, ← hdata, hs]

def c9CompleteChunks : List ChunkedPayload :=
  [⟨"r2", "a", 1, 2, 4, true, "cd"⟩, ⟨"r2", "a", 0, 2, 4, true, "ab"⟩]

/-- Witness for C9 (amended): two compressed chunks arriving out of
order reassemble (here with the identity as the gzip codec) to the
concatenation `abcd`; a batch missing index 1 fails. -/
theorem C9_reassembly_witness :
    (reassembleChunks id c9CompleteChunks = .ok "abcd" ∧
      (∃ e, reassembleChunks id [⟨"r3", "a", 0, 2, 4, false, "ab"⟩] = .error e)) := by
  have h1 := (C9_reassembly id c9CompleteChunks 2 true
    (by decide) (by decide)).2 (by decide) (by decide)
  have h2 := (C9_reassembly id [⟨"r3", "a", 0, 2, 4, false, "ab"⟩] 2 false
    (by decide) (by decide)).1 (by decide) (by decide)
    ⟨1, by decide, by decide⟩ (by decide)
  constructor
  · rw [h1]
    rfl
  · exact h2

/-- `inferErrorCode` never returns `INVALID_PARAMS`: that code does not
appear among its cases. -/
theorem inferErrorCode_ne_INVALID_PARAMS (message : String) :
    inferErrorCode message ≠ "INVALID_PARAMS" := by
  unfold inferErrorCode
  split_ifs <;> decide

/-- The tools whose handlers accept an element reference (`refId` for
`read_page`, `ref` for the rest). -/
def REF_TOOLS : List String :=
  ["click", "scroll", "form_input", "read_page", "upload_image"]

def c2Worker : WorkerState := ⟨[("default", [1])], []⟩

def c2Env : WorkerEnv :=
  ⟨fun _ _ _ => .ok "ok", fun _ _ => .res none "ok", fun _ _ => .res none "ok",
    fun _ _ => ([], .ok "ok")⟩

def c2Input : ToolInput := ⟨some 1, some "bogus", none, none, none, none, none, none⟩

/-- C2 counterexample: a `click` carrying the invalid ref `bogus` is
rejected before any DOM or CDP call (empty trace), but the failed
`tool_result`'s code is `INTERNAL_ERROR` — `inferErrorCode` has no
`INVALID_PARAMS` case — contradicting the claimed `INVALID_PARAMS`. -/
theorem C2_counterexample :
    (handleToolCall c2Env c2Worker 0 "default" "click" c2Input).1
      = .failure "INTERNAL_ERROR" "Invalid element ref format: bogus" ∧
      (handleToolCall c2Env c2Worker 0 "default" "click" c2Input).2.2 = [] ∧
      "INTERNAL_ERROR" ≠ "INVALID_PARAMS" :=
  ⟨by decide, by decide, by decide⟩

/-- C2 (amended): for each of the five tools that accept an element
reference, an invalid non-empty reference (with the tab access check
passing and, for the lock-guarded tools, the tab lock available) yields
a failed result before any DOM or CDP call — with code
`inferErrorCode ("Invalid element ref format: " ++ r)`, which is
`INTERNAL_ERROR` for ordinary refs and in no case `INVALID_PARAMS`. -/
theorem C2_ref_guard (env : WorkerEnv) (st : WorkerState) (agentId : String)
    (input : ToolInput) (t : Int) (r : String) (now : Nat)
    (htab : input.tabId = some t) (ht : 0 ≤ t)
    (href : input.ref = some r) (hrefId : input.refId = some r)
    (hr0 : r ≠ "")
    (haccess : isTabInAgentGroup st agentId (some t) = true)
    (hbad : matchesRefPattern r = false)
    (hlock : (acquireTabLock st.tabLocks agentId t now TAB_LOCK_TTL).1 = true) :
    (∀ tool ∈ REF_TOOLS,
      (handleToolCall env st now agentId tool input).1
        = .failure (inferErrorCode ("Invalid element ref format: " ++ r))
            ("Invalid element ref format: " ++ r) ∧
      (handleToolCall env st now agentId tool input).2.2 = []) ∧
    inferErrorCode ("Invalid element ref format: " ++ r) ≠ "INVALID_PARAMS" := by
  obtain ⟨tb, rf, rfid, co, dir, vl, im, tm⟩ := input
  simp only [ToolInput.mk.injEq] at htab href hrefId
  cases htab
  cases href
  cases hrefId
  have hlt : ¬ t < 0 := by omega
  have htr : truthy (some r) = true := by
    simp [truthy, hr0]
  have hacc : ∀ L, tabAccessCheck ⟨st.groups, L⟩ agentId (some t) = none := by
    intro L
    have : isTabInAgentGroup ⟨st.groups, L⟩ agentId (some t)
        = isTabInAgentGroup st agentId (some t) := rfl
    simp [tabAccessCheck, this, haccess]
  have hsan : sanitizeRef r = .error ("Invalid element ref format: " ++ r) := by
    simp [sanitizeRef, hbad]
  refine ⟨?_, inferErrorCode_ne_INVALID_PARAMS _⟩
  intro tool htool
  have hstG : (⟨st.groups, st.tabLocks⟩ : WorkerState) = st := rfl
  fin_cases htool
  · -- click
    constructor <;>
      simp [handleToolCall, hlock, runDispatch, dispatchTool, hlt, CDP_TOOLS,
        dispatchToolSwitch, handleClick, hacc, refArg, htr, hsan]
  · -- scroll
    constructor <;>
      simp [handleToolCall, hlock, runDispatch, dispatchTool, hlt, CDP_TOOLS,
        dispatchToolSwitch, handleScroll, hacc, refArg, htr, hsan]
  · -- form_input
    constructor <;>
      simp [handleToolCall, hlock, runDispatch, dispatchTool, hlt, CDP_TOOLS,
        dispatchToolSwitch, handleFormInput, hacc, refArg, htr, hsan]
  · -- read_page
    constructor <;>
      simp [handleToolCall, hlock, runDispatch, dispatchTool, hlt, CDP_TOOLS,
        dispatchToolSwitch, handleReadPage, hacc, refArg, htr, hsan]
  · -- upload_image
    constructor <;>
      simp [handleToolCall, hlock, runDispatch, dispatchTool, hlt, CDP_TOOLS,
        dispatchToolSwitch, handleUploadImage, hacc, refArg, htr, hsan, hstG]

/-- Witness for C2 (amended) at the concrete `bogus` ref on tab 1. -/
theorem C2_ref_guard_witness :
    (∀ tool ∈ REF_TOOLS,
      (handleToolCall c2Env
          ⟨[("default", [1])], []⟩ 0 "default" tool
          ⟨some 1, some "bogus", some "bogus", none, none, none, none, none⟩).1
        = .failure (inferErrorCode "Invalid element ref format: bogus")
            "Invalid element ref format: bogus" ∧
      (handleToolCall c2Env
          ⟨[("default", [1])], []⟩ 0 "default" tool
          ⟨some 1, some "bogus", some "bogus", none, none, none, none, none⟩).2.2 = []) ∧
    inferErrorCode "Invalid element ref format: bogus" ≠ "INVALID_PARAMS" :=
  C2_ref_guard c2Env ⟨[("default", [1])], []⟩ "default"
    ⟨some 1, some "bogus", some "bogus", none, none, none, none, none⟩ 1 "bogus" 0
    rfl (by decide) rfl rfl (by decide) (by decide) (by decide) (by decide)

def c8Lock : TabLockInfo := ⟨5, "A", 100, 60000⟩

def c8Worker : WorkerState := ⟨[("B", [5])], [(5, c8Lock)]⟩

def c8Env : WorkerEnv :=
  ⟨fun _ _ _ => .ok "ok", fun _ _ => .res none "ok", fun _ _ => .res none "ok",
    fun _ _ => ([], .ok "ok")⟩

def c8Input : ToolInput := ⟨some 5, none, none, some (1, 1), none, none, none, none⟩

/-- C8: for a tab `T` whose lock is held by agent `A`: (1) an acquisition
by a different agent `B` fails while the lock is younger than its ttl,
(2) so a CDP-dependent tool call by `B` on `T` returns `TAB_LOCKED`
immediately, with no dispatch and no state change; (3) re-acquisition by
`A` succeeds and refreshes `acquiredAt`; (4) a lock older than its ttl is
broken, so the new acquisition succeeds. -/
theorem C8_tab_lock (st : WorkerState) (env : WorkerEnv) (A B : String) (T : Int)
    (l : TabLockInfo) (now : Nat) (tool : String) (input : ToolInput)
    (hlook : lookupA T st.tabLocks = some l) (hA : l.agentId = A) :
    ((A ≠ B) → (now - l.acquiredAt < l.ttl) →
      acquireTabLock st.tabLocks B T now TAB_LOCK_TTL = (false, st.tabLocks)) ∧
    ((A ≠ B) → (now - l.acquiredAt < l.ttl) → tool ∈ CDP_TOOLS →
      input.tabId = some T →
      handleToolCall env st now B tool input
        = (.failure "TAB_LOCKED" ("Tab " ++ toString T ++ " is locked by another agent"),
            st, [])) ∧
    ((¬ l.ttl < now - l.acquiredAt) →
      acquireTabLock st.tabLocks A T now TAB_LOCK_TTL
        = (true, updateA T { l with acquiredAt := now } st.tabLocks)) ∧
    ((l.ttl < now - l.acquiredAt) →
      acquireTabLock st.tabLocks B T now TAB_LOCK_TTL
        = (true, setA T ⟨T, B, now, TAB_LOCK_TTL⟩ (eraseA T st.tabLocks))) := by
  have hfresh : ∀ hAB : A ≠ B, now - l.acquiredAt < l.ttl →
      acquireTabLock st.tabLocks B T now TAB_LOCK_TTL = (false, st.tabLocks) := by
    intro hAB hyoung
    have hexp : ¬ l.ttl < now - l.acquiredAt := by omega
    have hne : ¬ l.agentId ≠ B → False := by
      intro hx
      exact hx (by rw [hA]; exact hAB)
    simp only [acquireTabLock, hlook, if_neg hexp]
    rw [if_pos (by rw [hA]; exact hAB)]
  refine ⟨hfresh, ?_, ?_, ?_⟩
  · intro hAB hyoung htool htab
    have hct : CDP_TOOLS.contains tool = true := by
      simp only [List.contains, List.elem_eq_mem, decide_eq_true_eq]
      exact htool
    have hacq := hfresh hAB hyoung
    simp only [handleToolCall, htab, hct, if_true, hacq]
    simp
  · intro hexp
    have hsame : ¬ l.agentId ≠ A := by
      simp [hA]
    simp only [acquireTabLock, hlook, if_neg hexp]
    rw [if_neg hsame]
  · intro hexp
    simp only [acquireTabLock, hlook, if_pos hexp]

/-- Witness for C8: lock on tab 5 held by `A` since t=100 with a 60 s
ttl — at t=200 agent `B` is refused (`click` returns `TAB_LOCKED`) while
`A` refreshes; at t=70000 the lock is expired and `B` takes it. -/
theorem C8_tab_lock_witness :
    acquireTabLock c8Worker.tabLocks "B" 5 200 TAB_LOCK_TTL = (false, c8Worker.tabLocks) ∧
      handleToolCall c8Env c8Worker 200 "B" "click" c8Input
        = (.failure "TAB_LOCKED" "Tab 5 is locked by another agent", c8Worker, []) ∧
      acquireTabLock c8Worker.tabLocks "A" 5 200 TAB_LOCK_TTL
        = (true, updateA 5 ⟨5, "A", 200, 60000⟩ c8Worker.tabLocks) ∧
      acquireTabLock c8Worker.tabLocks "B" 5 70000 TAB_LOCK_TTL
        = (true, setA 5 ⟨5, "B", 70000, TAB_LOCK_TTL⟩ (eraseA 5 c8Worker.tabLocks)) := by
  have h1 := C8_tab_lock c8Worker c8Env "A" "B" 5 c8Lock 200 "click" c8Input
    (by decide) rfl
  have h2 := C8_tab_lock c8Worker c8Env "A" "B" 5 c8Lock 70000 "click" c8Input
    (by decide) rfl
  exact ⟨h1.1 (by decide) (by decide),
    h1.2.1 (by decide) (by decide) (by decide) rfl,
    h1.2.2.1 (by decide),
    h2.2.2.2 (by decide)⟩

end ViyvBrowser
